import Mathlib

/-!
Verification of the Fit-Buddy normalization and persistence core.

Each definition in this file is a shallow embedding of a function or code
block of the repository (src/app.py, src/database.py); doc comments cite
the file and line range that the definition is translated from.
Numbers appearing in JSON payloads are modelled as `Int` (integral fields
such as stress levels, seconds, step counts) or `Rat` (fields that the
upstream may deliver fractionally, such as distances and floor counts);
`Option` models Python `None` / absent keys; Python `or`-coalescing on
numbers (where `0` is falsy) is modelled explicitly.
-/

/-! ## Python-style helpers -/

/-- Python `a or b` on optional integers: `None` and `0` are falsy. -/
def pyOrInt (a b : Option Int) : Option Int :=
  match a with
  | some x => if x = 0 then b else some x
  | none => b

/-- Python `a or 0` on an optional rational (absent, `None` and `0` all
collapse to `0`). -/
def pyOrZeroQ (a : Option Rat) : Rat :=
  match a with
  | some x => if x = 0 then 0 else x
  | none => 0

/-- Python `a or b` on optional rationals: `None` and `0` are falsy. -/
def pyOrQ (a b : Option Rat) : Option Rat :=
  match a with
  | some x => if x = 0 then b else some x
  | none => b

/-- Python `round(x)` to the nearest integer, ties to even (banker's
rounding), on an exact rational. -/
def pyRoundInt (q : Rat) : Int :=
  let f := ⌊q⌋
  let r := q - (f : Rat)
  if r < 1/2 then f
  else if 1/2 < r then f + 1
  else if f % 2 = 0 then f else f + 1

/-- Python `round(x, 2)`: round to the nearest hundredth, ties to even. -/
def pyRound2 (q : Rat) : Rat :=
  ((pyRoundInt (q * 100) : Rat)) / 100

/-! ## Stress histogram (src/app.py get_stress lines 611-671, and the
identical block of sync_date_to_database lines 1296-1334) -/

/-- One element of `stressValuesArray` as the loop body of
`get_stress` (src/app.py lines 627-644) distinguishes them:
`pair ts level` is a list of length at least 2 whose second element is a
numeric stress level (`level = some l`) or a non-numeric value
(`level = none`, which the code coerces to `0`); `malformed` is any entry
that is not a list of length at least 2 and is skipped entirely. -/
inductive StressEntry
  | pair (ts : Int) (level : Option Int)
  | malformed
deriving DecidableEq, Repr

/-- Accumulator of the stress loop (src/app.py lines 614-624):
bucket minute totals, monitored minutes, weighted sum, running maximum. -/
structure StressAcc where
  rest : Int
  low : Int
  medium : Int
  high : Int
  monitored : Int
  weightedSum : Int
  maxStress : Int
deriving DecidableEq, Repr

/-- Initial accumulator: all zeros (src/app.py lines 614-623). -/
def stressInit : StressAcc :=
  { rest := 0, low := 0, medium := 0, high := 0,
    monitored := 0, weightedSum := 0, maxStress := 0 }

/-- One iteration of the loop over `stressValuesArray`
(src/app.py lines 627-644): entries that are not lists of length at least
2 are skipped; otherwise the level (non-numeric coerced to 0) is bucketed
by the `if`/`elif` chain, and levels strictly above 0 additionally feed
the monitored-minutes counter, the weighted sum and the maximum. Each
entry represents 3 minutes. -/
def stressStep (acc : StressAcc) (e : StressEntry) : StressAcc :=
  match e with
  | StressEntry.malformed => acc
  | StressEntry.pair _ level =>
    let stress : Int := match level with | some l => l | none => 0
    let acc1 :=
      if 0 ≤ stress ∧ stress ≤ 25 then { acc with rest := acc.rest + 3 }
      else if 26 ≤ stress ∧ stress ≤ 50 then { acc with low := acc.low + 3 }
      else if 51 ≤ stress ∧ stress ≤ 75 then { acc with medium := acc.medium + 3 }
      else if 75 < stress then { acc with high := acc.high + 3 }
      else acc
    if 0 < stress then
      { acc1 with monitored := acc1.monitored + 3,
                  weightedSum := acc1.weightedSum + stress * 3,
                  maxStress := max acc1.maxStress stress }
    else acc1

/-- The whole loop of src/app.py lines 627-644. -/
def computeStress (entries : List StressEntry) : StressAcc :=
  entries.foldl stressStep stressInit

/-- Locally computed average stress, before the upstream override
(src/app.py line 648): `stress_sum / total_stress_minutes` when monitored
minutes are positive, else 0, then `round(_, 2)` (line 666). -/
def localAverageStress (entries : List StressEntry) : Rat :=
  let acc := computeStress entries
  pyRound2 (if 0 < acc.monitored then (acc.weightedSum : Rat) / (acc.monitored : Rat) else 0)

/-! ## Floors aggregation -/

/-- One element of `floorValuesArray` as the loops in
`get_health_metrics` (src/app.py lines 998-1002) and
`sync_date_to_database` (lines 1573-1576) distinguish them:
`quad asc` is a list with more than 2 elements whose index-2 element
(`floorsAscended`) is numeric (`asc = some q`) or non-numeric
(`asc = none`, coerced to 0); `bad` is any entry that is not a list with
more than 2 elements and is skipped. -/
inductive FloorEntry
  | quad (asc : Option Rat)
  | bad
deriving DecidableEq, Repr

/-- Sum of the `floorsAscended` slots over an array
(src/app.py lines 997-1002: `total_floors` accumulation). -/
def totalFloorsAscended (arr : List FloorEntry) : Rat :=
  arr.foldl
    (fun t e =>
      match e with
      | FloorEntry.quad (some q) => t + q
      | FloorEntry.quad none => t + 0
      | FloorEntry.bad => t)
    0

/-- Floors result of `get_health_metrics` (src/app.py lines 992-1003) and
of the health-metrics block of `sync_date_to_database` (lines 1568-1577)
for a payload that carries a `floorValuesArray`: when the array is empty
the guard `if floor_array` fails and `floors` stays `None`; otherwise the
total is returned if strictly positive, else `None`. -/
def healthMetricsFloors (arr : List FloorEntry) : Option Rat :=
  if arr ≠ [] then
    (let t := totalFloorsAscended arr
     if 0 < t then some t else none)
  else none

/-- Floors value of the `/api/all` endpoint `get_all_data`
(src/app.py lines 1811-1816): for a truthy (non-empty) `floorValuesArray`
the generator-expression sum over entries that are lists with more than 2
elements and numeric index-2 element is reported directly (zero included);
otherwise `None`. -/
def allDataFloors (arr : List FloorEntry) : Option Rat :=
  if arr ≠ [] then
    some (arr.foldl
      (fun t e =>
        match e with
        | FloorEntry.quad (some q) => t + q
        | FloorEntry.quad none => t
        | FloorEntry.bad => t)
      0)
  else none

/-! ## Sleep duration fields -/

/-- Pair of columns `sleep_duration_seconds` / `sleep_duration_minutes`
of a persisted `SleepData` row (src/database.py lines 81-82). -/
structure SleepDuration where
  seconds : Option Int
  minutes : Option Int
deriving DecidableEq, Repr

/-- Resolution and persistence of the sleep duration
(src/app.py `get_sleep` lines 497-498, identically in
`sync_date_to_database` lines 1238-1241 and stored at lines 530-531 /
1248-1249): `sleep_time_seconds` is the Python `or` of the
`dailySleepDTO` value and the root value (so a leading 0 falls through),
and `sleep_time_minutes` is `sleep_time_seconds // 60` only when
`sleep_time_seconds` is truthy, else `None`. -/
def storeSleepDuration (dailyDTO rootVal : Option Int) : SleepDuration :=
  let v := pyOrInt dailyDTO rootVal
  { seconds := v,
    minutes :=
      match v with
      | some x => if x = 0 then none else some (Int.fdiv x 60)
      | none => none }

/-! ## Heart-rate update path (src/app.py get_heartrate lines 415-436) -/

/-- Persisted `HeartRateData` row (src/database.py lines 40-55), data
columns only; `email`/`day` form the natural key. -/
structure HeartRateRow where
  email : String
  day : Nat
  resting_hr : Option Int
  average_hr : Option Int
  max_hr : Option Int
  min_hr : Option Int
deriving DecidableEq, Repr

/-- Normalized heart-rate record as resolved by `get_heartrate`
(src/app.py lines 409-412): each field is the raw payload's value or
`None`. -/
structure HeartRateNormalized where
  resting : Option Int
  average : Option Int
  maxhr : Option Int
  minhr : Option Int
deriving DecidableEq, Repr

/-- The update branch of `get_heartrate`'s store block
(src/app.py lines 419-424): every data column is assigned the normalized
record's value, unconditionally. -/
def updateExistingHr (row : HeartRateRow) (r : HeartRateNormalized) : HeartRateRow :=
  { row with
    resting_hr := r.resting, average_hr := r.average,
    max_hr := r.maxhr, min_hr := r.minhr }

/-! ## Health-metrics update path (src/app.py sync_date_to_database
lines 1588-1615) -/

/-- Persisted `HealthMetricsData` row (src/database.py lines 229-257),
data columns only. `intensity_minutes_cardio` / `_anaerobic` are not
optional: the resolver defaults them to 0 (src/app.py lines 1564-1565). -/
structure HealthMetricsRow where
  email : String
  day : Nat
  vo2_max : Option Rat
  fitness_age : Option Int
  hrv_value : Option Rat
  training_readiness : Option Int
  training_status : Option String
  intensity_minutes_cardio : Int
  intensity_minutes_anaerobic : Int
  hydration_ml : Option Int
  hydration_goal_ml : Option Int
  floors_climbed : Option Rat
  average_spo2 : Option Rat
  lowest_spo2 : Option Rat
  average_respiration : Option Rat
  lowest_respiration : Option Rat
deriving DecidableEq, Repr

/-- Normalized health-metrics record as resolved by the health-metrics
block of `sync_date_to_database` (src/app.py lines 1533-1585). -/
structure HealthMetricsNormalized where
  vo2_max : Option Rat
  fitness_age : Option Int
  hrv_value : Option Rat
  training_readiness : Option Int
  training_status : Option String
  cardio : Int
  anaerobic : Int
  hydration_ml : Option Int
  hydration_goal_ml : Option Int
  floors : Option Rat
  avg_spo2 : Option Rat
  lowest_spo2 : Option Rat
  avg_respiration : Option Rat
  lowest_respiration : Option Rat
deriving DecidableEq, Repr

/-- The `if existing_health:` update branch
(src/app.py lines 1589-1604): every data column is assigned the
normalized record's resolved value, unconditionally. -/
def updateExistingHealth (row : HealthMetricsRow) (r : HealthMetricsNormalized) :
    HealthMetricsRow :=
  { row with
    vo2_max := r.vo2_max, fitness_age := r.fitness_age,
    hrv_value := r.hrv_value, training_readiness := r.training_readiness,
    training_status := r.training_status,
    intensity_minutes_cardio := r.cardio,
    intensity_minutes_anaerobic := r.anaerobic,
    hydration_ml := r.hydration_ml, hydration_goal_ml := r.hydration_goal_ml,
    floors_climbed := r.floors, average_spo2 := r.avg_spo2,
    lowest_spo2 := r.lowest_spo2, average_respiration := r.avg_respiration,
    lowest_respiration := r.lowest_respiration }

/-! ## Steps persistence via session.merge
(src/app.py sync_date_to_database lines 1160-1178, src/database.py
lines 11-24) -/

/-- Persisted `StepsData` row (src/database.py lines 11-24): surrogate
integer primary key `id`, natural key `(email, day)` guarded by the
`unique_user_date_steps` constraint (line 24). -/
structure StepsRow where
  id : Option Nat
  email : String
  day : Nat
  total_steps : Int
deriving DecidableEq, Repr

/-- `db.session.merge(steps_record)` (src/app.py line 1173) for an
instance constructed without a primary key (line 1166: `StepsData(...)`
never sets `id`): SQLAlchemy's merge reconciles by primary key only, and
an instance with no primary-key identity always becomes a brand-new
pending row, i.e. an INSERT at flush time. -/
def sessionMergeNoPk (pending : List StepsRow) (r : StepsRow) : List StepsRow :=
  pending ++ [{ r with id := none }]

/-- `db.session.commit()` (src/app.py line 1657): flush the pending
inserts into the table, assigning fresh surrogate ids; the
`unique_user_date_steps` constraint on `(email, date)`
(src/database.py line 24) rejects the flush with an integrity error when
a row for the same natural key already exists. -/
def commitInserts (table pending : List StepsRow) : Except String (List StepsRow) :=
  pending.foldl
    (fun acc r =>
      Except.bind acc (fun t =>
        if t.any (fun x => x.email = r.email && x.day = r.day) then
          Except.error "UNIQUE constraint failed: steps_data.email, steps_data.date"
        else
          Except.ok (t ++ [{ r with id := some (t.length + 1) }])))
    (Except.ok table)

/-- One execution of the steps block of `sync_date_to_database`
(src/app.py lines 1166-1173) followed by the request's commit
(line 1657), against a given stored table: construct the record with no
primary key, merge it into the (fresh per-request) session, commit. -/
def syncStepsOnce (table : List StepsRow) (email : String) (day : Nat)
    (steps : Int) : Except String (List StepsRow) :=
  commitInserts table
    (sessionMergeNoPk [] { id := none, email := email, day := day, total_steps := steps })

/-! ## Sync orchestrator report (src/app.py sync_date_to_database
lines 1149-1667) -/

/-- Per-family entry of `sync_results['sync_status']`
(values `'success'`, `'no_data'`, `'error: <message>'`). -/
inductive FamilyStatus
  | success
  | noData
  | error (msg : String)
deriving DecidableEq, Repr

/-- Outcome of the upstream fetches of one sync request, one per metric
family. `Except.error msg` models the fetch raising with message `msg`.
For sleep the payload carries whether `sleep_data` is truthy
(src/app.py line 1215); for stress whether `get_all_day_stress` returned
something other than `None` (line 1282). The other families' status does
not depend on the payload content, which is therefore elided. -/
structure SyncFetches where
  steps : Except String Unit
  heartRate : Except String Unit
  sleep : Except String Bool
  stress : Except String Bool
  bodyBattery : Except String Unit
  activities : Except String Unit
  healthMetrics : Except String Unit
deriving Repr

/-- Status of a family whose block (src/app.py lines 1160-1178,
1180-1209, 1367-1393, 1395-1512, 1514-1653) sets `'success'` whenever its
fetches return and `'error: <msg>'` when any of them raises. -/
def plainFamilyStatus (f : Except String Unit) : FamilyStatus :=
  match f with
  | Except.ok _ => FamilyStatus.success
  | Except.error e => FamilyStatus.error ("error: " ++ e)

/-- Status of the sleep block (src/app.py lines 1211-1275): a raising
fetch is caught as an error; a falsy `sleep_data` yields `'no_data'`
(line 1217); otherwise `'success'` (line 1270). -/
def sleepFamilyStatus (f : Except String Bool) : FamilyStatus :=
  match f with
  | Except.error e => FamilyStatus.error ("error: " ++ e)
  | Except.ok false => FamilyStatus.noData
  | Except.ok true => FamilyStatus.success

/-- Status of the stress block (src/app.py lines 1277-1365): a raising
fetch is caught as an error. When `get_all_day_stress` returns `None`,
line 1283 sets `'no_data'` but line 1361 (indented under the `try`, not
under the `else`) overwrites it with `'success'`, after which line 1362
reads the never-assigned local `average_stress`, raising
`UnboundLocalError`, which the `except` turns into an error status. When
data is present the block completes and keeps `'success'`. -/
def stressFamilyStatus (f : Except String Bool) : FamilyStatus :=
  match f with
  | Except.error e => FamilyStatus.error ("error: " ++ e)
  | Except.ok false =>
      FamilyStatus.error
        "error: local variable 'average_stress' referenced before assignment"
  | Except.ok true => FamilyStatus.success

/-- The `sync_status` map built by `sync_date_to_database`
(src/app.py lines 1149-1653): one explicit entry per attempted family,
in block order. -/
def syncReport (o : SyncFetches) : List (String × FamilyStatus) :=
  [("steps", plainFamilyStatus o.steps),
   ("heart_rate", plainFamilyStatus o.heartRate),
   ("sleep", sleepFamilyStatus o.sleep),
   ("stress", stressFamilyStatus o.stress),
   ("body_battery", plainFamilyStatus o.bodyBattery),
   ("activities", plainFamilyStatus o.activities),
   ("health_metrics", plainFamilyStatus o.healthMetrics)]

/-! ## Monthly running-goal projection (src/app.py get_live_data
lines 2264-2325) -/

/-- One activity as consumed by the running-goal loop
(src/app.py lines 2283-2302): the resolved `typeKey` (empty string when
`activityType` is not a dict or has no `typeKey`, lines 2286-2287) and the
optional numeric fields read through Python `or`-defaults. -/
structure RunAct where
  typeKey : String
  distance : Option Rat
  duration : Option Rat
  elapsedDuration : Option Rat
  calories : Option Int
deriving DecidableEq, Repr

/-- Membership in `running_types = {'running', 'trail_running',
'treadmill_running'}` (src/app.py line 2278). -/
def isRunningType (k : String) : Bool :=
  k = "running" || k = "trail_running" || k = "treadmill_running"

/-- The accumulation loop of src/app.py lines 2280-2294: total distance
in metres, total duration in seconds, total calories, over activities
whose type key is a running type. `dist = act.get('distance') or 0`,
`dur = act.get('duration') or act.get('elapsedDuration') or 0`,
`cal = act.get('calories') or 0`. -/
def runTotals (acts : List RunAct) : Rat × Rat × Int :=
  acts.foldl
    (fun t a =>
      if isRunningType a.typeKey then
        (t.1 + pyOrZeroQ a.distance,
         t.2.1 + pyOrZeroQ (pyOrQ a.duration a.elapsedDuration),
         t.2.2 + (match a.calories with
                  | some c => if c = 0 then 0 else c
                  | none => 0))
      else t)
    (0, 0, 0)

/-- The fields of `result['running_goal']` that the projection derives
(src/app.py lines 2304-2322). -/
structure RunningGoalResult where
  totalKm : Rat
  remainingKm : Rat
  daysElapsed : Int
  daysRemaining : Int
  kmPerDayNeeded : Rat
  onTrack : Bool
deriving DecidableEq, Repr

/-- The projection computation of src/app.py lines 2304-2322, for the
current month having `daysInMonth` days with today being its
`dayOfMonth`-th day (so `(today - month_start).days` is
`dayOfMonth - 1`): `total_km = round(total_distance_m / 1000, 2)`,
`goal_km = 100`, `remaining_km = max(goal_km - total_km, 0)`,
`days_elapsed = (today - month_start).days + 1`,
`days_remaining = max(days_in_month - days_elapsed, 0)`,
`km_per_day_needed = round(remaining_km / days_remaining, 2)` when
`days_remaining > 0` else 0, and
`on_track = total_km >= (goal_km / days_in_month) * days_elapsed`. -/
def runningGoal (acts : List RunAct) (daysInMonth dayOfMonth : Int) :
    RunningGoalResult :=
  let totalDistanceM := (runTotals acts).1
  let totalKm := pyRound2 (totalDistanceM / 1000)
  let goalKm : Rat := 100
  let remainingKm := max (goalKm - totalKm) 0
  let daysElapsed := (dayOfMonth - 1) + 1
  let daysRemaining := max (daysInMonth - daysElapsed) 0
  let kmPerDayNeeded :=
    if 0 < daysRemaining then pyRound2 (remainingKm / (daysRemaining : Rat)) else 0
  let onTrack := decide ((goalKm / (daysInMonth : Rat)) * (daysElapsed : Rat) ≤ totalKm)
  { totalKm := totalKm, remainingKm := remainingKm,
    daysElapsed := daysElapsed, daysRemaining := daysRemaining,
    kmPerDayNeeded := kmPerDayNeeded, onTrack := onTrack }

/-! ## Database read endpoint (src/app.py get_db_data lines 1842-1911) -/

/-- Outcome of `datetime.strptime(date_str, '%Y-%m-%d')` on the `date`
query parameter: the parameter is missing, fails to parse, or denotes a
valid calendar day (encoded as a day number). -/
inductive DateArg
  | missing
  | invalid
  | valid (day : Nat)
deriving DecidableEq, Repr

/-- A stored row as seen by `get_db_data`: its table (`data_type`), owner
email, day, and an opaque serialized payload (`to_dict()` output). -/
structure DbRow where
  dtype : String
  email : String
  day : Nat
  payload : String
deriving DecidableEq, Repr

/-- HTTP response of `get_db_data`: status code plus body summary. `ok`
carries the matched payloads (one element for single-record types, all
matches for `activities`). -/
inductive DbResponse
  | badRequest (msg : String)
  | notFound
  | ok (payloads : List String)
deriving DecidableEq, Repr

/-- The known `data_type_map` keys (src/app.py lines 1868-1876). -/
def knownDataTypes : List String :=
  ["steps", "heartrate", "sleep", "stress", "bodybattery", "activities",
   "healthmetrics"]

/-- The `/api/db/<data_type>` handler `get_db_data`
(src/app.py lines 1842-1904). The route carries no authentication
decorator and the body reads only the `email` and `date` query parameters
and the stored rows; the request headers (`hdrs`) are in scope for the
request but are never consulted. `if not email` treats an empty string as
missing (line 1858); an unparsable date is a 400 (lines 1863-1866); an
unknown data type is a 400 (lines 1878-1880); `activities` returns every
matching row, other types the first matching row (lines 1883-1890); an
empty result is a 404 (lines 1892-1896). -/
def get_db_data (dataType : String) (emailArg : Option String)
    (dateArg : DateArg) (_hdrs : List (String × String))
    (table : List DbRow) : DbResponse :=
  match emailArg with
  | none => DbResponse.badRequest "Missing email parameter"
  | some email =>
    if email = "" then DbResponse.badRequest "Missing email parameter"
    else
      match dateArg with
      | DateArg.missing => DbResponse.badRequest "Missing date parameter"
      | DateArg.invalid => DbResponse.badRequest "Invalid date format. Use YYYY-MM-DD"
      | DateArg.valid day =>
        if knownDataTypes.contains dataType then
          (let found :=
            table.filter (fun r => r.dtype = dataType && r.email = email && r.day = day)
           let data :=
            if dataType = "activities" then found.map DbRow.payload
            else
              match found with
              | [] => []
              | r :: _ => [r.payload]
           if data = [] then DbResponse.notFound
           else DbResponse.ok data)
        else DbResponse.badRequest ("Unknown data type: " ++ dataType)

/-! ## Properties stated over the embedding -/

/-- Bucket-shape invariant of a stress accumulator: every bucket minute
total is a non-negative multiple of the 3-minute sample interval, and the
total monitored minutes never exceed the sum of the four buckets. -/
def stressBucketsInv (a : StressAcc) : Prop :=
  (3 ∣ a.rest ∧ 0 ≤ a.rest) ∧ (3 ∣ a.low ∧ 0 ≤ a.low) ∧
  (3 ∣ a.medium ∧ 0 ≤ a.medium) ∧ (3 ∣ a.high ∧ 0 ≤ a.high) ∧
  a.monitored ≤ a.rest + a.low + a.medium + a.high

/-- Bucketing contract of one loop iteration on a well-formed sample with
numeric level `s`: the sum of the four buckets grows by exactly the
3-minute interval, and the bucket that grows is characterised by the
inclusive ranges rest `[0,25]`, low `[26,50]`, medium `[51,75]`,
high `[76,∞)`. -/
def bucketCasesProp (acc : StressAcc) (ts s : Int) : Prop :=
  let a := stressStep acc (StressEntry.pair ts (some s))
  (a.rest + a.low + a.medium + a.high
      = acc.rest + acc.low + acc.medium + acc.high + 3) ∧
  ((a.rest = acc.rest + 3 ∧ a.low = acc.low ∧ a.medium = acc.medium ∧
      a.high = acc.high) ↔ (0 ≤ s ∧ s ≤ 25)) ∧
  ((a.low = acc.low + 3 ∧ a.rest = acc.rest ∧ a.medium = acc.medium ∧
      a.high = acc.high) ↔ (26 ≤ s ∧ s ≤ 50)) ∧
  ((a.medium = acc.medium + 3 ∧ a.rest = acc.rest ∧ a.low = acc.low ∧
      a.high = acc.high) ↔ (51 ≤ s ∧ s ≤ 75)) ∧
  ((a.high = acc.high + 3 ∧ a.rest = acc.rest ∧ a.low = acc.low ∧
      a.medium = acc.medium) ↔ 76 ≤ s)

/-- The distance total the spec describes: sum of the `distance` field
(`or 0`) over the activities whose type key is a running type. -/
def sumRunningDistance (acts : List RunAct) : Rat :=
  ((acts.filter (fun a => isRunningType a.typeKey)).map
    (fun a => pyOrZeroQ a.distance)).sum

/-- Concrete activity list: one 99 km road run (distance in metres). -/
def oneLongRun : List RunAct :=
  [{ typeKey := "running", distance := some 99000, duration := some 3600,
     elapsedDuration := none, calories := some 500 }]

/-- Concrete activity list: one 40 km road run, the spec's §8 example. -/
def fortyKmRun : List RunAct :=
  [{ typeKey := "running", distance := some 40000, duration := some 14400,
     elapsedDuration := none, calories := some 2000 }]

/-- Concrete stored heart-rate row with all statistics present. -/
def hrRowFull : HeartRateRow :=
  { email := "u@example.com", day := 20260101, resting_hr := some 60,
    average_hr := some 70, max_hr := some 150, min_hr := some 50 }

/-- Concrete normalized heart-rate record whose `resting` field resolved
as absent (a transient upstream gap) while the others are present. -/
def hrRecAbsent : HeartRateNormalized :=
  { resting := none, average := some 71, maxhr := some 151, minhr := some 51 }

/-- Concrete steps row as persisted by a first successful sync. -/
def stepsRowFirst : StepsRow :=
  { id := some 1, email := "u@example.com", day := 20260101, total_steps := 1000 }

/-- Concrete fetch outcomes: the heart-rate fetch raises a connectivity
error, every other family fetch succeeds with data present. -/
def fetchesHrDown : SyncFetches :=
  { steps := Except.ok (), heartRate := Except.error "Connection reset",
    sleep := Except.ok true, stress := Except.ok true,
    bodyBattery := Except.ok (), activities := Except.ok (),
    healthMetrics := Except.ok () }

/-! ## Theorems -/

/-- C1, counterexample: for the stored heart-rate row `hrRowFull`
(resting 60 bpm) and the normalized record `hrRecAbsent` whose resting
field resolved as absent, the update path of `get_heartrate`
(src/app.py lines 419-424) nulls the stored resting value out instead of
leaving it untouched. -/
theorem c1_absent_overwrite_counterexample :
    (updateExistingHr hrRowFull hrRecAbsent).resting_hr = none ∧
    hrRowFull.resting_hr = some 60 := by
  constructor <;> rfl

/-- C1 (amended): the update paths of `get_heartrate`
(src/app.py lines 419-424) and of the health-metrics block of
`sync_date_to_database` (lines 1591-1604) overwrite every data field with
the normalized record's resolved value — including fields resolved as
absent, which are stored as null (last-write-wins per field); only the
natural-key fields are preserved. -/
theorem c1_update_overwrites_every_field
    (row : HeartRateRow) (r : HeartRateNormalized)
    (hrow : HealthMetricsRow) (hr : HealthMetricsNormalized) :
    ((updateExistingHr row r).resting_hr = r.resting ∧
     (updateExistingHr row r).average_hr = r.average ∧
     (updateExistingHr row r).max_hr = r.maxhr ∧
     (updateExistingHr row r).min_hr = r.minhr ∧
     (updateExistingHr row r).email = row.email ∧
     (updateExistingHr row r).day = row.day) ∧
    ((updateExistingHealth hrow hr).vo2_max = hr.vo2_max ∧
     (updateExistingHealth hrow hr).fitness_age = hr.fitness_age ∧
     (updateExistingHealth hrow hr).hrv_value = hr.hrv_value ∧
     (updateExistingHealth hrow hr).training_readiness = hr.training_readiness ∧
     (updateExistingHealth hrow hr).training_status = hr.training_status ∧
     (updateExistingHealth hrow hr).intensity_minutes_cardio = hr.cardio ∧
     (updateExistingHealth hrow hr).intensity_minutes_anaerobic = hr.anaerobic ∧
     (updateExistingHealth hrow hr).hydration_ml = hr.hydration_ml ∧
     (updateExistingHealth hrow hr).hydration_goal_ml = hr.hydration_goal_ml ∧
     (updateExistingHealth hrow hr).floors_climbed = hr.floors ∧
     (updateExistingHealth hrow hr).average_spo2 = hr.avg_spo2 ∧
     (updateExistingHealth hrow hr).lowest_spo2 = hr.lowest_spo2 ∧
     (updateExistingHealth hrow hr).average_respiration = hr.avg_respiration ∧
     (updateExistingHealth hrow hr).lowest_respiration = hr.lowest_respiration ∧
     (updateExistingHealth hrow hr).email = hrow.email ∧
     (updateExistingHealth hrow hr).day = hrow.day) := by
  refine ⟨⟨rfl, rfl, rfl, rfl, rfl, rfl⟩, ?_⟩
  refine ⟨rfl, rfl, rfl, rfl, rfl, rfl, rfl, rfl, rfl, rfl, rfl, rfl, rfl, rfl, rfl, rfl⟩

/-- C2: the steps block of `sync_date_to_database` persists through
`db.session.merge` on a record constructed without a primary key
(src/app.py lines 1166-1173). The first sync for a fresh key inserts one
row; repeating the identical sync merges a second no-primary-key
instance, which flushes as a second INSERT and is rejected by the
`unique_user_date_steps` constraint (src/database.py line 24): the second
application fails instead of updating in place. -/
theorem c2_second_steps_sync_fails :
    syncStepsOnce [] "u@example.com" 20260101 1000 = Except.ok [stepsRowFirst] ∧
    syncStepsOnce [stepsRowFirst] "u@example.com" 20260101 1000 =
      Except.error "UNIQUE constraint failed: steps_data.email, steps_data.date" := by
  constructor <;> rfl

/-- C7: partial failure isolation of `sync_date_to_database`
(src/app.py lines 1149-1653). If the heart-rate fetch raises a
(non-authentication) error while every other family's fetch succeeds with
data present, the report marks `heart_rate` with an error status, every
other family with success, and enumerates all seven attempted families
with an explicit status. -/
theorem c7_partial_failure_isolation (o : SyncFetches) (msg : String)
    (hhr : o.heartRate = Except.error msg)
    (hsteps : o.steps = Except.ok ())
    (hsleep : o.sleep = Except.ok true)
    (hstress : o.stress = Except.ok true)
    (hbb : o.bodyBattery = Except.ok ())
    (hact : o.activities = Except.ok ())
    (hhm : o.healthMetrics = Except.ok ()) :
    syncReport o =
      [("steps", FamilyStatus.success),
       ("heart_rate", FamilyStatus.error ("error: " ++ msg)),
       ("sleep", FamilyStatus.success),
       ("stress", FamilyStatus.success),
       ("body_battery", FamilyStatus.success),
       ("activities", FamilyStatus.success),
       ("health_metrics", FamilyStatus.success)] ∧
    (syncReport o).map Prod.fst =
      ["steps", "heart_rate", "sleep", "stress", "body_battery",
       "activities", "health_metrics"] := by
  simp [syncReport, plainFamilyStatus, sleepFamilyStatus, stressFamilyStatus,
    hhr, hsteps, hsleep, hstress, hbb, hact, hhm]

/-- Witness for C7 at the concrete outcome `fetchesHrDown`. -/
theorem c7_partial_failure_isolation_witness :
    syncReport fetchesHrDown =
      [("steps", FamilyStatus.success),
       ("heart_rate", FamilyStatus.error ("error: " ++ "Connection reset")),
       ("sleep", FamilyStatus.success),
       ("stress", FamilyStatus.success),
       ("body_battery", FamilyStatus.success),
       ("activities", FamilyStatus.success),
       ("health_metrics", FamilyStatus.success)] ∧
    (syncReport fetchesHrDown).map Prod.fst =
      ["steps", "heart_rate", "sleep", "stress", "body_battery",
       "activities", "health_metrics"] :=
  c7_partial_failure_isolation fetchesHrDown "Connection reset"
    rfl rfl rfl rfl rfl rfl rfl

/-- C9, counterexample: a payload whose root `sleepTimeSeconds` is 0
persists a `SleepData` row with `sleep_duration_seconds` present (0) but
`sleep_duration_minutes` absent, because src/app.py line 498 guards the
division with the truthiness of the seconds value — not `some (0 / 60)`
as the claim requires. -/
theorem c9_zero_seconds_counterexample :
    (storeSleepDuration none (some 0)).seconds = some 0 ∧
    (storeSleepDuration none (some 0)).minutes = none ∧
    (storeSleepDuration none (some 0)).minutes ≠ some (Int.fdiv 0 60) := by
  refine ⟨rfl, rfl, by decide⟩

/-- C9 (amended): for every persisted sleep duration, when the resolved
seconds value is present and nonzero the stored minutes equal the seconds
floor-divided by 60 (Python `//`); when the resolved seconds value is
zero (or absent) the stored minutes are absent. -/
theorem c9_duration_minutes (daily root : Option Int) (s : Int) :
    ((storeSleepDuration daily root).seconds = some s → s ≠ 0 →
      (storeSleepDuration daily root).minutes = some (Int.fdiv s 60)) ∧
    ((storeSleepDuration daily root).seconds = some 0 →
      (storeSleepDuration daily root).minutes = none) := by
  unfold storeSleepDuration
  constructor
  · intro hs hnz
    simp only at hs ⊢
    rw [hs]
    simp [hnz]
  · intro hs
    simp only at hs ⊢
    rw [hs]
    simp

/-- Witness for C9 at a concrete 7.5-hour sleep (27000 s → 450 min). -/
theorem c9_duration_minutes_witness :
    (storeSleepDuration (some 27000) none).minutes = some (Int.fdiv 27000 60) :=
  (c9_duration_minutes (some 27000) none 27000).1 rfl (by decide)

/-- C10: the `/api/db/<data_type>` read endpoint `get_db_data`
(src/app.py lines 1842-1904) performs no authentication or authorization
check: its response is a function of the path's data type, the `email`
and `date` query parameters and the stored rows alone, identical for any
two sets of request headers the caller supplies. -/
theorem c10_headers_noninterference
    (dataType : String) (emailArg : Option String) (dateArg : DateArg)
    (hdrsA hdrsB : List (String × String)) (table : List DbRow) :
    get_db_data dataType emailArg dateArg hdrsA table =
      get_db_data dataType emailArg dateArg hdrsB table := rfl

/-- One stress-loop iteration preserves the bucket-shape invariant. -/
theorem stressStep_preserves_inv (acc : StressAcc) (e : StressEntry)
    (h : stressBucketsInv acc) : stressBucketsInv (stressStep acc e) := by
  obtain ⟨⟨hr1, hr2⟩, ⟨hl1, hl2⟩, ⟨hm1, hm2⟩, ⟨hh1, hh2⟩, hmon⟩ := h
  cases e with
  | malformed => exact ⟨⟨hr1, hr2⟩, ⟨hl1, hl2⟩, ⟨hm1, hm2⟩, ⟨hh1, hh2⟩, hmon⟩
  | pair ts level =>
    rcases level with _ | l <;>
      (unfold stressBucketsInv
       simp only [stressStep]
       split_ifs <;> simp_all <;> omega)

/-- The whole loop preserves the bucket-shape invariant. -/
theorem foldl_stressStep_inv (l : List StressEntry) (acc : StressAcc)
    (h : stressBucketsInv acc) : stressBucketsInv (l.foldl stressStep acc) := by
  induction l generalizing acc with
  | nil => exact h
  | cons e l ih => exact ih _ (stressStep_preserves_inv acc e h)

/-- C3, counterexample: on the single well-formed sample with stress
level 0 the histogram puts 3 minutes in the rest bucket while the total
monitored minutes stay 0 (level-0 samples are bucketed but not counted as
monitored, src/app.py lines 632-644), so the sum of the buckets exceeds
the monitored minutes reported alongside them. -/
theorem c3_sum_exceeds_monitored_counterexample :
    ¬ ((computeStress [StressEntry.pair 0 (some 0)]).rest +
       (computeStress [StressEntry.pair 0 (some 0)]).low +
       (computeStress [StressEntry.pair 0 (some 0)]).medium +
       (computeStress [StressEntry.pair 0 (some 0)]).high ≤
       (computeStress [StressEntry.pair 0 (some 0)]).monitored) := by decide

/-- C3 (amended): for every stress sample sequence the four bucket minute
totals are non-negative multiples of the 3-minute sample interval, and
the total monitored minutes are at most — not at least — the sum of the
four buckets (level-0 samples are bucketed as rest without being counted
as monitored, so the claimed inequality holds with the direction
reversed). -/
theorem c3_buckets_shape (entries : List StressEntry) :
    stressBucketsInv (computeStress entries) :=
  foldl_stressStep_inv entries stressInit
    (by simp [stressBucketsInv, stressInit])

/-- C4: every well-formed sample with numeric level `s ≥ 0` contributes
its 3-minute interval to exactly one of the four buckets, characterised
by the inclusive ranges rest `[0,25]`, low `[26,50]`, medium `[51,75]`,
high `[76,∞)` — mutually exclusive and collectively exhaustive over
levels `≥ 0` (src/app.py lines 632-639). -/
theorem c4_bucket_assignment (ts s : Int) (acc : StressAcc) (hs : 0 ≤ s) :
    bucketCasesProp acc ts s := by
  simp only [bucketCasesProp, stressStep]
  split_ifs <;> simp_all <;> omega

/-- Witness for C4 at level 10 from the all-zero accumulator. -/
theorem c4_bucket_assignment_witness : bucketCasesProp stressInit 0 10 :=
  c4_bucket_assignment 0 10 stressInit (by decide)

/-- A fold over entries that are all skipped leaves the accumulator
unchanged. -/
theorem foldl_stressStep_skipped (l : List StressEntry) (acc : StressAcc)
    (h : ∀ e ∈ l, e = StressEntry.malformed) :
    l.foldl stressStep acc = acc := by
  induction l with
  | nil => rfl
  | cons e l ih =>
    have he : e = StressEntry.malformed := h e (List.mem_cons_self e l)
    subst he
    exact ih fun e hm => h e (List.mem_cons_of_mem _ hm)

/-- C5, counterexample: the entry `[0, <non-numeric>]` is not a
`[timestamp, numeric-level]` pair, yet the loop coerces its level to 0
(src/app.py line 629) and adds 3 minutes to the rest bucket — the buckets
are not all zero. -/
theorem c5_nonnumeric_level_counterexample :
    (computeStress [StressEntry.pair 0 none]).rest = 3 ∧
    (computeStress [StressEntry.pair 0 none]).rest ≠ 0 := by decide

/-- C5 (amended): an empty sample list, or one whose entries are all
skipped as malformed (not lists of length at least 2), yields all-zero
buckets and a zero average, and the computation is total (never an
error); but a length-≥2 entry whose level slot is non-numeric is instead
treated as level 0 and contributes 3 minutes to the rest bucket. -/
theorem c5_empty_or_skipped_all_zero (entries : List StressEntry)
    (h : ∀ e ∈ entries, e = StressEntry.malformed) :
    computeStress entries = stressInit ∧ localAverageStress entries = 0 := by
  have hc : computeStress entries = stressInit :=
    foldl_stressStep_skipped entries stressInit h
  refine ⟨hc, ?_⟩
  unfold localAverageStress
  rw [hc]
  norm_num [stressInit, pyRound2, pyRoundInt]

/-- Witness for C5 on a list of two skipped entries. -/
theorem c5_empty_or_skipped_all_zero_witness :
    computeStress [StressEntry.malformed, StressEntry.malformed] = stressInit ∧
    localAverageStress [StressEntry.malformed, StressEntry.malformed] = 0 :=
  c5_empty_or_skipped_all_zero
    [StressEntry.malformed, StressEntry.malformed] (by decide)

/-- The two floor-sum folds (explicit loop of `get_health_metrics`,
generator expression of `get_all_data`) compute the same total. -/
theorem allDataFloors_sum_eq (arr : List FloorEntry) (t : Rat) :
    arr.foldl
      (fun t e =>
        match e with
        | FloorEntry.quad (some q) => t + q
        | FloorEntry.quad none => t
        | FloorEntry.bad => t)
      t
    = arr.foldl
      (fun t e =>
        match e with
        | FloorEntry.quad (some q) => t + q
        | FloorEntry.quad none => t + 0
        | FloorEntry.bad => t)
      t := by
  induction arr generalizing t with
  | nil => rfl
  | cons e l ih =>
    cases e with
    | bad => exact ih t
    | quad asc => cases asc <;> simp [ih]

/-- C6, counterexample: on the array `[[t0, t1, 0, 0]]` (one well-formed
entry, ascended sum 0) the `/api/all` endpoint's floors aggregation
(src/app.py lines 1811-1816, cited by the claim) reports `0`, not
absent. -/
theorem c6_alldata_zero_sum_counterexample :
    totalFloorsAscended [FloorEntry.quad (some 0)] = 0 ∧
    allDataFloors [FloorEntry.quad (some 0)] = some 0 ∧
    allDataFloors [FloorEntry.quad (some 0)] ≠ none := by
  refine ⟨by simp [totalFloorsAscended], by simp [allDataFloors], by simp [allDataFloors]⟩

/-- C6 (amended): the health-metrics floors aggregation
(`get_health_metrics` lines 992-1003 and `sync_date_to_database`
lines 1568-1577) reports absent when the ascended sum is 0 and the sum
itself when it is positive, as claimed; the `/api/all` endpoint
(`get_all_data` lines 1811-1816) instead reports the plain sum for any
non-empty array, which is `0` — not absent — when the sum is 0. -/
theorem c6_floors_aggregation (arr : List FloorEntry) :
    (totalFloorsAscended arr = 0 → healthMetricsFloors arr = none) ∧
    (0 < totalFloorsAscended arr →
      healthMetricsFloors arr = some (totalFloorsAscended arr)) ∧
    (arr ≠ [] → allDataFloors arr = some (totalFloorsAscended arr)) := by
  refine ⟨?_, ?_, ?_⟩
  · intro h0
    unfold healthMetricsFloors
    split_ifs with hne
    · rw [h0]
      simp
    · rfl
  · intro hpos
    have hne : arr ≠ [] := by
      intro he
      subst he
      simp [totalFloorsAscended] at hpos
    unfold healthMetricsFloors
    simp [hne, hpos]
  · intro hne
    unfold allDataFloors totalFloorsAscended
    simp [hne, allDataFloors_sum_eq]

/-- Witness for C6 on the spec's example array `[[t0,t1,5,2],[t1,t2,0,1]]`
(ascended sum 5). -/
theorem c6_floors_aggregation_witness :
    healthMetricsFloors [FloorEntry.quad (some 5), FloorEntry.quad (some 0)] =
      some (totalFloorsAscended
        [FloorEntry.quad (some 5), FloorEntry.quad (some 0)]) :=
  (c6_floors_aggregation
    [FloorEntry.quad (some 5), FloorEntry.quad (some 0)]).2.1
    (by norm_num [totalFloorsAscended])

/-- The distance component of the accumulation loop equals the start
value plus the sum of `distance or 0` over the running-type activities. -/
theorem runTotals_fst_aux (acts : List RunAct) (t : Rat × Rat × Int) :
    (acts.foldl
      (fun t a =>
        if isRunningType a.typeKey then
          (t.1 + pyOrZeroQ a.distance,
           t.2.1 + pyOrZeroQ (pyOrQ a.duration a.elapsedDuration),
           t.2.2 + (match a.calories with
                    | some c => if c = 0 then 0 else c
                    | none => 0))
        else t) t).1 = t.1 + sumRunningDistance acts := by
  induction acts generalizing t with
  | nil => simp [sumRunningDistance]
  | cons a l ih =>
    by_cases h : isRunningType a.typeKey
    · simp [List.foldl_cons, ih, sumRunningDistance, List.filter_cons, h, add_assoc]
    · simp [List.foldl_cons, ih, sumRunningDistance, List.filter_cons, h]

/-- The total distance accumulated by the loop of src/app.py
lines 2283-2294 is the sum of distances over the running-type
activities. -/
theorem runTotals_fst (acts : List RunAct) :
    (runTotals acts).1 = sumRunningDistance acts := by
  unfold runTotals
  rw [runTotals_fst_aux]
  exact zero_add _

/-- C8, counterexample: with one 99 km run on day 15 of a 30-day month,
`km_per_day_needed` is `round(1/15, 2) = 0.07` (src/app.py line 2309),
which differs from the exact quotient `remaining / days_remaining =
1/15` that the claim asserts. -/
theorem c8_pace_rounding_counterexample :
    (runningGoal oneLongRun 30 15).kmPerDayNeeded = 7/100 ∧
    (runningGoal oneLongRun 30 15).remainingKm /
      ((runningGoal oneLongRun 30 15).daysRemaining : Rat) = 1/15 ∧
    (runningGoal oneLongRun 30 15).kmPerDayNeeded ≠
      (runningGoal oneLongRun 30 15).remainingKm /
        ((runningGoal oneLongRun 30 15).daysRemaining : Rat) := by
  have hrt : (runTotals oneLongRun).1 = 99000 := by
    rw [runTotals_fst]
    norm_num [sumRunningDistance, oneLongRun, isRunningType, pyOrZeroQ]
  refine ⟨?_, ?_, ?_⟩ <;>
    norm_num [runningGoal, hrt, pyRound2, pyRoundInt]

/-- C8 (amended): the monthly running-goal projection filters to the
running type keys and satisfies `total_km = round(Σ distance / 1000, 2)`,
`remaining = max(100 − total_km, 0)`,
`days_elapsed = (today − month_start).days + 1 = day-of-month`,
`days_remaining = max(days_in_month − days_elapsed, 0)`,
`pace_needed_per_day = round(remaining / days_remaining, 2)` when
`days_remaining > 0` else 0 (rounded to 2 decimal places, ties to even —
not the exact quotient), and `on_track ⟺ total_km ≥
(100 / days_in_month) × days_elapsed`. -/
theorem c8_running_goal_projection (acts : List RunAct) (dim day : Int) :
    (runningGoal acts dim day).totalKm =
      pyRound2 (sumRunningDistance acts / 1000) ∧
    (runningGoal acts dim day).remainingKm =
      max (100 - (runningGoal acts dim day).totalKm) 0 ∧
    (runningGoal acts dim day).daysElapsed = day ∧
    (runningGoal acts dim day).daysRemaining = max (dim - day) 0 ∧
    (runningGoal acts dim day).kmPerDayNeeded =
      (if 0 < (runningGoal acts dim day).daysRemaining then
         pyRound2 ((runningGoal acts dim day).remainingKm /
           ((runningGoal acts dim day).daysRemaining : Rat))
       else 0) ∧
    ((runningGoal acts dim day).onTrack = true ↔
      (100 / (dim : Rat)) * (day : Rat) ≤ (runningGoal acts dim day).totalKm) := by
  have hday : day - 1 + 1 = day := by omega
  simp [runningGoal, runTotals_fst, hday, decide_eq_true_eq]
